import Mathlib

/-!
# Verification of the testivai-witness verification-and-approval pipeline

Shallow embedding of the core of the `@testivai/witness` package:
the pixel-comparison engine (`src/core/VRTProcessor.ts`), the configuration
loader (`src/core/ConfigService.ts`), the report generator with its security
gate (`src/core/ReportGenerator.ts`), the approval service
(`src/core/ApprovalService.ts`), the capture log (`src/core/StateLogger.ts`)
and the local server routing (`src/cli/commands/serve.ts`).

The filesystem is modelled as a finite association list from absolute paths to
file contents.  JavaScript numbers are modelled as rationals (`Rat`); the
external `pixelmatch` library is modelled as an abstract function parameter;
the external `JSON.parse` is modelled by supplying its result (a JSON value or
a syntax error) as an input.
-/

namespace TestivaiWitness

/-! ## Path model (Node `path.join` / `path.resolve` on absolute paths) -/

/-- Split a character list at every occurrence of `sep`. -/
def splitChars (sep : Char) : List Char → List (List Char)
  | [] => [[]]
  | c :: cs =>
    let rest := splitChars sep cs
    if c = sep then [] :: rest
    else
      match rest with
      | [] => [[c]]
      | r :: rs => (c :: r) :: rs

/-- The `/`-separated segments of a path string. -/
def pathSegs (s : String) : List String :=
  (splitChars '/' s.data).map String.mk

/-- Resolve `.`, `..` and empty segments, as Node path normalization does for
an absolute path (a `..` at the root is dropped). -/
def resolveSegs (segs : List String) : List String :=
  segs.foldl
    (fun acc seg =>
      if seg = "" ∨ seg = "." then acc
      else if seg = ".." then acc.dropLast
      else acc ++ [seg])
    []

/-- Normalize an absolute path: model of Node `path.resolve` on an absolute
path (and of the normalization `path.join` applies to its joined result). -/
def normalizePath (p : String) : String :=
  "/" ++ String.intercalate "/" (resolveSegs (pathSegs p))

/-- Model of Node `path.join a b` for an absolute `a`. -/
def pathJoin (a b : String) : String :=
  normalizePath (a ++ "/" ++ b)

/-- `a.isPrefixOf b` on the underlying character lists; model of JavaScript
`b.startsWith(a)`. -/
def strIsPrefixOf (a b : String) : Bool :=
  a.data.isPrefixOf b.data

/-- Split a string at every occurrence of `c`; model of JavaScript
`s.split(c)`. -/
def splitOnChar (c : Char) (s : String) : List String :=
  (splitChars c s.data).map String.mk

/-- The length of a string in characters. -/
def strLength (s : String) : Nat :=
  s.data.length

/-- Drop the first `n` characters; model of JavaScript `s.substring(n)`. -/
def strDrop (s : String) (n : Nat) : String :=
  String.mk (s.data.drop n)

/-- Does `s` end with `suffix`? -/
def strEndsWith (s suffix : String) : Bool :=
  suffix.data.isSuffixOf s.data

/-- Drop the last `n` characters (`path.basename file ext` stripping). -/
def strDropRight (s : String) (n : Nat) : String :=
  String.mk (s.data.take (s.data.length - n))

/-- Model of JavaScript `hay.includes(needle)` (substring test). -/
def containsSub (needle hay : String) : Bool :=
  hay.data.tails.any (fun t => needle.data.isPrefixOf t)

/-! ## Filesystem model -/

/-- A decoded PNG: dimensions plus the raw pixel buffer (abstract words). -/
structure Image where
  width : Nat
  height : Nat
  data : List Nat
deriving DecidableEq

/-- Contents of a file on disk: either a decodable PNG, or a file whose
decode (`PNG.sync.read`) throws with the given message. -/
inductive FileData
  | png (img : Image)
  | corrupt (msg : String)
deriving DecidableEq

/-- The filesystem: a finite map from absolute paths to file contents,
in directory-listing order. -/
abbrev FS := List (String × FileData)

/-- Model of `fs.existsSync`. -/
def existsSync (fs : FS) (p : String) : Bool :=
  (fs.lookup p).isSome

/-- Model of `fs.readFile` followed by `PNG.sync.read` (`loadImage` in
`VRTProcessor.ts`): a missing file rejects with an ENOENT error, a corrupt
file rejects with its decode error. -/
def loadImage (fs : FS) (p : String) : Except String Image :=
  match fs.lookup p with
  | some (.png img) => .ok img
  | some (.corrupt msg) => .error msg
  | none => .error ("ENOENT: no such file or directory, open " ++ p)

/-- Write (create or overwrite) a file; model of `fs.writeFile`. -/
def writeFile : FS → String → FileData → FS
  | [], p, d => [(p, d)]
  | (q, e) :: rest, p, d =>
    if q = p then (p, d) :: rest else (q, e) :: writeFile rest p d

/-- Delete a file; model of `fs.remove`. -/
def removeFile (fs : FS) (p : String) : FS :=
  fs.filter (fun pr => pr.1 ≠ p)

/-- The file names directly inside `dir` (model of `fs.readdir`):
entries of the form `dir ++ "/" ++ name` with `name` containing no slash. -/
def childName (dir p : String) : Option String :=
  if strIsPrefixOf (dir ++ "/") p then
    let rest := strDrop p (strLength dir + 1)
    if rest.data.contains '/' ∨ rest = "" then none else some rest
  else none

/-- Model of `fs.readdir dir`, in filesystem order. -/
def readdir (fs : FS) (dir : String) : List String :=
  fs.filterMap (fun pr => childName dir pr.1)

/-! ## Comparison engine (`src/core/VRTProcessor.ts`) -/

/-- `ComparisonStatus` from `VRTProcessor.ts`. -/
inductive ComparisonStatus
  | passed
  | failed
  | new
  | missing
  | error
deriving DecidableEq

/-- `ComparisonResult` from `VRTProcessor.ts`. -/
structure ComparisonResult where
  name : String
  status : ComparisonStatus
  diffPixelRatio : Rat
  diffPixelCount : Nat
  totalPixels : Nat
  baselinePath : Option String := none
  currentPath : Option String := none
  diffPath : Option String := none
  error : Option String := none
  threshold : Rat
deriving DecidableEq

/-- `VerificationSummary` from `VRTProcessor.ts`. -/
structure VerificationSummary where
  total : Nat
  passed : Nat
  failed : Nat
  new : Nat
  missing : Nat
  errors : Nat
  results : List ComparisonResult
  timestamp : String
deriving DecidableEq

/-- The options record `VRTProcessor.ts` passes to `pixelmatch`
(threshold from config; `includeAA`, `alpha` and `diffColor` hardcoded
at the call site). -/
structure PixelmatchOptions where
  threshold : Rat
  includeAA : Bool
  alpha : Rat
  diffColor : List Nat
deriving DecidableEq

/-- The external `pixelmatch` library, modelled abstractly: from the two
pixel buffers, the dimensions and the options it returns the
mismatched-pixel count together with the diff buffer it paints. -/
structure Pixelmatch where
  run : List Nat → List Nat → Nat → Nat → PixelmatchOptions → Nat × List Nat

/-- The dimension-mismatch message thrown by `compareImages`. -/
def dimensionMismatchMessage (baseline current : Image) : String :=
  "Image dimensions mismatch: baseline (" ++ toString baseline.width ++ "x" ++
    toString baseline.height ++ ") vs current (" ++ toString current.width ++
    "x" ++ toString current.height ++ ")"

/-- `compareImages` from `VRTProcessor.ts`: load both images, reject on a
dimension mismatch, run `pixelmatch`, save the diff image to `diffPath` and
return the mismatched-pixel count and the total pixel count. -/
def compareImages (pm : Pixelmatch) (fs : FS)
    (baselinePath currentPath diffPath : String) (threshold : Rat) :
    Except String ((Nat × Nat) × FS) :=
  match loadImage fs baselinePath with
  | .error e => .error e
  | .ok baseline =>
    match loadImage fs currentPath with
    | .error e => .error e
    | .ok current =>
      if baseline.width ≠ current.width ∨ baseline.height ≠ current.height then
        .error (dimensionMismatchMessage baseline current)
      else
        let totalPixels := baseline.width * baseline.height
        let diff := pm.run baseline.data current.data baseline.width baseline.height
          { threshold := threshold, includeAA := true, alpha := 1/10,
            diffColor := [255, 0, 0] }
        let fs' := writeFile fs diffPath
          (.png { width := baseline.width, height := baseline.height, data := diff.2 })
        .ok ((diff.1, totalPixels), fs')

/-- JavaScript truthiness-plus-existence test used by `processComparison`:
`baselinePath && fs.existsSync(baselinePath)` (a `null` path is falsy). -/
def pathPresent (fs : FS) : Option String → Bool
  | none => false
  | some p => existsSync fs p

/-- `processComparison` from `VRTProcessor.ts`: the per-snapshot decision
table.  Returns the `ComparisonResult` and the filesystem after the call
(the diff image is written only on an actual pixel comparison). -/
def processComparison (pm : Pixelmatch) (fs : FS) (name : String)
    (baselinePath currentPath : Option String) (diffPath : String)
    (threshold : Rat) : ComparisonResult × FS :=
  let result : ComparisonResult :=
    { name := name, status := .error, diffPixelRatio := 0, diffPixelCount := 0,
      totalPixels := 0, threshold := threshold }
  -- Case 1: No baseline (new screenshot)
  if ¬ pathPresent fs baselinePath then
    ({ result with status := .new, currentPath := currentPath }, fs)
  -- Case 2: No current screenshot (missing/deleted test)
  else if ¬ pathPresent fs currentPath then
    ({ result with
        status := .missing
        baselinePath := baselinePath
        error := some "Current screenshot is missing. Test may have been deleted." }, fs)
  -- Case 3: Compare baseline and current
  else
    match compareImages pm fs (baselinePath.getD "") (currentPath.getD "")
        diffPath threshold with
    | .ok ((diffPixelCount, totalPixels), fs') =>
      ({ result with
          baselinePath := baselinePath
          currentPath := currentPath
          diffPath := some diffPath
          diffPixelCount := diffPixelCount
          totalPixels := totalPixels
          diffPixelRatio :=
            if totalPixels > 0 then (diffPixelCount : Rat) / (totalPixels : Rat) else 0
          status :=
            if (if totalPixels > 0 then (diffPixelCount : Rat) / (totalPixels : Rat) else 0)
                ≤ threshold then .passed else .failed }, fs')
    | .error e =>
      ({ result with
          baselinePath := baselinePath
          currentPath := currentPath
          diffPath := some diffPath
          status := .error
          error := some e }, fs)

/-- `path.basename file '.png'` for files ending in `.png`; `none` otherwise
(the filter in `getScreenshots`). -/
def pngName (file : String) : Option String :=
  if strEndsWith file ".png" then some (strDropRight file 4) else none

/-- `getScreenshots` from `VRTProcessor.ts`: the `.png` files of a directory
as a map from snapshot name to full path, in directory order. -/
def getScreenshots (fs : FS) (directory : String) : List (String × String) :=
  (readdir fs directory).filterMap
    (fun file => (pngName file).map (fun name => (name, directory ++ "/" ++ file)))

/-- JavaScript `new Set([...a, ...b])` iteration order: first occurrences,
in insertion order. -/
def dedupKeepFirst (l : List String) : List String :=
  l.foldl (fun acc x => if x ∈ acc then acc else acc ++ [x]) []

/-! ## Configuration (`src/types/config.ts`, `src/core/ConfigService.ts`) -/

/-- `TestivAIConfig.paths` from `src/types/config.ts`. -/
structure PathsConfig where
  baseline : String
  current : String
  diff : String
  reports : String
deriving DecidableEq

/-- `TestivAIConfig.visualEngine` from `src/types/config.ts`. -/
structure VisualEngineConfig where
  type : String
  threshold : Rat
  includeAA : Option Bool := none
  alpha : Option Rat := none
  diffColor : Option (List Nat) := none
deriving DecidableEq

/-- One entry of `TestivAIConfig.environments`. -/
structure EnvironmentConfig where
  width : Rat
  height : Rat
  deviceScaleFactor : Option Rat := none
deriving DecidableEq

/-- `TestivAIConfig.api` from `src/types/config.ts`. -/
structure ApiConfig where
  endpoint : String
  enabled : Bool
deriving DecidableEq

/-- `TestivAIConfig` from `src/types/config.ts`.  The `environments`
dictionary is a key-ordered association list. -/
structure TestivAIConfig where
  artifactRoot : String
  paths : PathsConfig
  visualEngine : VisualEngineConfig
  environments : List (String × EnvironmentConfig)
  api : Option ApiConfig := none
deriving DecidableEq

/-- `DEFAULT_CONFIG` from `ConfigService.ts` (JavaScript decimal literals
modelled as the rationals they denote). -/
def DEFAULT_CONFIG : TestivAIConfig :=
  { artifactRoot := ".testivai/artifacts"
    paths :=
      { baseline := ".testivai/artifacts/baselines"
        current := ".testivai/artifacts/current"
        diff := ".testivai/artifacts/diffs"
        reports := ".testivai/reports" }
    visualEngine :=
      { type := "pixelmatch"
        threshold := 1/10
        includeAA := some true
        alpha := some (1/10)
        diffColor := some [255, 0, 0] }
    environments :=
      [("desktop-hd", { width := 1920, height := 1080, deviceScaleFactor := some 1 })]
    api := none }

/-- A JavaScript/JSON value, as produced by `JSON.parse` (plus `undefined`
for absent properties). -/
inductive JsonVal
  | jsUndefined
  | null
  | bool (b : Bool)
  | num (q : Rat)
  | str (s : String)
  | arr (xs : List JsonVal)
  | obj (fields : List (String × JsonVal))

/-- JavaScript truthiness. -/
def truthy : JsonVal → Bool
  | .jsUndefined => false
  | .null => false
  | .bool b => b
  | .num q => q ≠ 0
  | .str s => s ≠ ""
  | .arr _ => true
  | .obj _ => true

/-- JavaScript `typeof`. -/
def jtypeof : JsonVal → String
  | .jsUndefined => "undefined"
  | .null => "object"
  | .bool _ => "boolean"
  | .num _ => "number"
  | .str _ => "string"
  | .arr _ => "object"
  | .obj _ => "object"

/-- JavaScript property access `v[k]` (an absent property is `undefined`;
arrays are indexed by their stringified indices). -/
def getProp : JsonVal → String → JsonVal
  | .obj fields, k => (fields.lookup k).getD .jsUndefined
  | .arr xs, k => ((k.toNat?).bind (fun i => xs.get? i)).getD .jsUndefined
  | _, _ => .jsUndefined

/-- JavaScript `Object.keys`. -/
def objKeys : JsonVal → List String
  | .obj fields => fields.map Prod.fst
  | .arr xs => (List.range xs.length).map toString
  | _ => []

/-- JavaScript strict equality `v === s` against a string literal. -/
def isStrEq (v : JsonVal) (s : String) : Bool :=
  match v with
  | .str t => t = s
  | _ => false

/-- The `for (const pathKey of requiredPaths)` loop of `validateConfig`. -/
def checkRequiredPaths (paths : JsonVal) : List String → Except String Unit
  | [] => .ok ()
  | pathKey :: rest =>
    let p := getProp paths pathKey
    if ¬ truthy p ∨ jtypeof p ≠ "string" then
      .error ("Invalid config: paths." ++ pathKey ++ " is required and must be a string")
    else checkRequiredPaths paths rest

/-- The `for (const envKey of envKeys)` loop of `validateConfig`. -/
def checkEnvironments (environments : JsonVal) : List String → Except String Unit
  | [] => .ok ()
  | envKey :: rest =>
    let env := getProp environments envKey
    if jtypeof (getProp env "width") ≠ "number" ∨
        jtypeof (getProp env "height") ≠ "number" then
      .error ("Invalid config: environment \"" ++ envKey ++
        "\" must have width and height as numbers")
    else checkEnvironments environments rest

/-- `validateConfig` from `ConfigService.ts`: the structural checks, in
source order, each `throw` modelled as an `Except.error`. -/
def validateConfig (config : JsonVal) : Except String Unit :=
  let artifactRoot := getProp config "artifactRoot"
  if ¬ truthy artifactRoot ∨ jtypeof artifactRoot ≠ "string" then
    .error "Invalid config: artifactRoot is required and must be a string"
  else
    let paths := getProp config "paths"
    if ¬ truthy paths ∨ jtypeof paths ≠ "object" then
      .error "Invalid config: paths is required and must be an object"
    else
      match checkRequiredPaths paths ["baseline", "current", "diff", "reports"] with
      | .error e => .error e
      | .ok _ =>
        let visualEngine := getProp config "visualEngine"
        if ¬ truthy visualEngine ∨ jtypeof visualEngine ≠ "object" then
          .error "Invalid config: visualEngine is required and must be an object"
        else if ¬ isStrEq (getProp visualEngine "type") "pixelmatch" then
          .error "Invalid config: visualEngine.type must be \"pixelmatch\""
        else if jtypeof (getProp visualEngine "threshold") ≠ "number" then
          .error "Invalid config: visualEngine.threshold is required and must be a number"
        else
          let environments := getProp config "environments"
          if ¬ truthy environments ∨ jtypeof environments ≠ "object" then
            .error "Invalid config: environments is required and must be an object"
          else
            let envKeys := objKeys environments
            if envKeys.length = 0 then
              .error "Invalid config: at least one environment must be defined"
            else
              match checkEnvironments environments envKeys with
              | .error e => .error e
              | .ok _ =>
                let api := getProp config "api"
                if truthy api then
                  if jtypeof api ≠ "object" then
                    .error "Invalid config: api must be an object"
                  else if jtypeof (getProp api "endpoint") ≠ "string" ∨
                      jtypeof (getProp api "enabled") ≠ "boolean" then
                    .error "Invalid config: api.endpoint must be a string and api.enabled must be a boolean"
                  else .ok ()
                else .ok ()

/-- Coerce a JSON value to a string (validated fields are strings). -/
def asString : JsonVal → String
  | .str s => s
  | _ => ""

/-- Coerce a JSON value to a number. -/
def asRat : JsonVal → Rat
  | .num q => q
  | _ => 0

/-- Coerce a JSON value to a boolean. -/
def asBool : JsonVal → Bool
  | .bool b => b
  | _ => false

/-- The TypeScript cast `config as TestivAIConfig` on a validated JSON
value: project the typed fields out of the parsed object. -/
def toConfig (j : JsonVal) : TestivAIConfig :=
  let paths := getProp j "paths"
  let ve := getProp j "visualEngine"
  let api := getProp j "api"
  { artifactRoot := asString (getProp j "artifactRoot")
    paths :=
      { baseline := asString (getProp paths "baseline")
        current := asString (getProp paths "current")
        diff := asString (getProp paths "diff")
        reports := asString (getProp paths "reports") }
    visualEngine :=
      { type := asString (getProp ve "type")
        threshold := asRat (getProp ve "threshold")
        includeAA :=
          match getProp ve "includeAA" with
          | .bool b => some b
          | _ => none
        alpha :=
          match getProp ve "alpha" with
          | .num q => some q
          | _ => none
        diffColor :=
          match getProp ve "diffColor" with
          | .arr xs => some (xs.map (fun v => (asRat v).num.toNat))
          | _ => none }
    environments :=
      (objKeys (getProp j "environments")).map
        (fun k =>
          let env := getProp (getProp j "environments") k
          (k, { width := asRat (getProp env "width")
                height := asRat (getProp env "height")
                deviceScaleFactor :=
                  match getProp env "deviceScaleFactor" with
                  | .num q => some q
                  | _ => none }))
    api :=
      if truthy api then
        some { endpoint := asString (getProp api "endpoint")
               enabled := asBool (getProp api "enabled") }
      else none }

/-- The state of `testivai.config.json` in the working directory:
`none` when the file does not exist; `some (Except.error e)` when it exists
but `JSON.parse` (after comment-stripping) throws a `SyntaxError` with
message `e`; `some (Except.ok j)` when it parses to the JSON value `j`. -/
abbrev ConfigFile := Option (Except String JsonVal)

/-- `loadConfig` from `ConfigService.ts`. -/
def loadConfig (file : ConfigFile) : Except String TestivAIConfig :=
  match file with
  | none => .ok DEFAULT_CONFIG
  | some (.error e) => .error ("Failed to parse testivai.config.json: " ++ e)
  | some (.ok j) =>
    match validateConfig j with
    | .error e => .error e
    | .ok _ => .ok (toConfig j)

/-! ## Verification pass (`runVerification` in `VRTProcessor.ts`) -/

/-- The `for (const name of allNames)` loop of `runVerification`: one
`processComparison` per snapshot name, threading the filesystem. -/
def processAll (pm : Pixelmatch) (fs : FS) (names : List String)
    (baselines currents : List (String × String)) (diffDir : String)
    (threshold : Rat) : List ComparisonResult × FS :=
  match names with
  | [] => ([], fs)
  | name :: rest =>
    let step := processComparison pm fs name (baselines.lookup name)
      (currents.lookup name) (pathJoin diffDir (name ++ ".png")) threshold
    let final := processAll pm step.2 rest baselines currents diffDir threshold
    (step.1 :: final.1, final.2)

/-- The snapshot names `runVerification` iterates over: the union of the
baseline and current names, in first-seen order (JavaScript `Set`). -/
def verificationNames (fs : FS) (baselineDir currentDir : String) : List String :=
  dedupKeepFirst ((getScreenshots fs baselineDir).map Prod.fst ++
    (getScreenshots fs currentDir).map Prod.fst)

/-- `runVerification` from `VRTProcessor.ts`.  `cfgFile` is the state of
`testivai.config.json`, `cwd` the working directory, `now` the timestamp
supplied by the clock.  An exception from `loadConfig` propagates. -/
def runVerification (pm : Pixelmatch) (cfgFile : ConfigFile) (cwd : String)
    (fs : FS) (now : String) : Except String (VerificationSummary × FS) :=
  match loadConfig cfgFile with
  | .error e => .error e
  | .ok config =>
    let baselineDir := pathJoin cwd config.paths.baseline
    let currentDir := pathJoin cwd config.paths.current
    let diffDir := pathJoin cwd config.paths.diff
    let baselines := getScreenshots fs baselineDir
    let currents := getScreenshots fs currentDir
    let allNames := verificationNames fs baselineDir currentDir
    let threshold := config.visualEngine.threshold
    let run := processAll pm fs allNames baselines currents diffDir threshold
    let results := run.1
    .ok
      ({ total := results.length
         passed := (results.filter (fun r => r.status = .passed)).length
         failed := (results.filter (fun r => r.status = .failed)).length
         new := (results.filter (fun r => r.status = .new)).length
         missing := (results.filter (fun r => r.status = .missing)).length
         errors := (results.filter (fun r => r.status = .error)).length
         results := results
         timestamp := now }, run.2)

/-! ## Report generator and security gate (`src/core/ReportGenerator.ts`) -/

/-- The approve-button fragment of `generateComparisonCard`: emitted only for
`failed` and `new` results, always with the inline style `display: none;`. -/
def approveButtonHTML (result : ComparisonResult) : String :=
  if result.status = .failed ∨ result.status = .new then
    "\n    <button \n      class=\"approve-btn\"\n      data-screenshot-name=\"" ++
    result.name ++
    "\"\n      data-baseline-path=\"" ++ (result.baselinePath.getD "") ++
    "\"\n      data-current-path=\"" ++ (result.currentPath.getD "") ++
    "\"\n      data-action=\"approve\"\n      style=\"display: none;\"\n    >\n      ✓ Approve Change\n    </button>\n  "
  else ""

/-- The read-only-notice fragment of `generateComparisonCard`: emitted for
exactly the results that get an approve button, also hidden by default. -/
def readOnlyMessageHTML (result : ComparisonResult) : String :=
  if result.status = .failed ∨ result.status = .new then
    "\n    <div class=\"read-only-message\" style=\"display: none;\">\n      <span class=\"read-only-icon\">🔒</span>\n      <span class=\"read-only-text\">View-only mode - Start local server to approve changes</span>\n      <code class=\"read-only-command\">npx tsvai serve</code>\n    </div>\n  "
  else ""

/-- The outcome of the embedded client's `fetch('/api/status')` probe:
success, a non-ok HTTP response, or a network error / 5-second timeout. -/
inductive ProbeOutcome
  | ok
  | httpError
  | networkError
deriving DecidableEq

/-- The CSS `display` values the gate script assigns to the approve buttons
and to the read-only notices. -/
structure GateDisplay where
  approveBtnDisplay : String
  readOnlyMsgDisplay : String
deriving DecidableEq

/-- `checkServerStatus` from the report's embedded script: on a successful
probe it reveals every approve button and hides every read-only notice and
returns `true`; on any failure (non-ok response, network error or timeout)
it hides every approve button, shows every read-only notice and returns
`false`. -/
def checkServerStatus (probe : ProbeOutcome) : Bool × GateDisplay :=
  match probe with
  | .ok => (true, { approveBtnDisplay := "inline-block", readOnlyMsgDisplay := "none" })
  | .httpError => (false, { approveBtnDisplay := "none", readOnlyMsgDisplay := "flex" })
  | .networkError => (false, { approveBtnDisplay := "none", readOnlyMsgDisplay := "flex" })

/-! ## Local server routing (`src/cli/commands/serve.ts`) -/

/-- What the request handler in `serveCommand` does with a request. -/
inductive HttpResponse
  | apiStatus
  | acceptBaseline
  | forbidden
  | file (path : String)
deriving DecidableEq

/-- Is `p` actually inside the root directory (equal to it or below it,
with a path-separator boundary)?  This is the specification-side notion of
containment, used to state what the handler's check was meant to enforce. -/
def isInsideRoot (root p : String) : Bool :=
  decide (p = root) || strIsPrefixOf (root ++ "/") p

/-- The request handler of `serveCommand`: the two API endpoints, then
static files resolved against the reports directory, guarded by
`resolvedPath.startsWith(resolvedReportsDir)`. -/
def handleRequest (reportsDir : String) (method url : String) : HttpResponse :=
  if url = "/api/status" ∧ method = "GET" then .apiStatus
  else if url = "/api/accept-baseline" ∧ method = "POST" then .acceptBaseline
  else
    let indexPath := pathJoin reportsDir "index.html"
    let filePath :=
      if url = "/" ∨ url = "/index.html" then indexPath
      else pathJoin reportsDir (strDrop ((splitOnChar '?' url).headD "") 1)
    let resolvedPath := normalizePath filePath
    let resolvedReportsDir := normalizePath reportsDir
    if ¬ strIsPrefixOf resolvedReportsDir resolvedPath then .forbidden
    else .file filePath

/-! ## Approval service (`src/core/ApprovalService.ts`) -/

/-- `ApprovalResult` from `ApprovalService.ts`. -/
structure ApprovalResult where
  success : Bool
  message : String
  snapshotName : Option String := none
  error : Option String := none
deriving DecidableEq

/-- The `catch` block of `approveBaseline`: classify a thrown error message
into the structured error taxonomy. -/
def classifyApprovalError (snapshotName errorMessage : String) : ApprovalResult :=
  if containsSub "EACCES" errorMessage ∨ containsSub "permission denied" errorMessage then
    { success := false
      message := "Permission denied. Please check file permissions for: " ++ snapshotName
      error := some "PERMISSION_DENIED" }
  else if containsSub "ENOSPC" errorMessage ∨ containsSub "no space" errorMessage then
    { success := false
      message := "Insufficient disk space to approve: " ++ snapshotName
      error := some "NO_SPACE" }
  else
    { success := false
      message := "Failed to approve baseline for " ++ snapshotName ++ ": " ++ errorMessage
      error := some "UNKNOWN_ERROR" }

/-- `approveBaseline` from `ApprovalService.ts`.  `fault` models the
filesystem mutation step (`ensureDir` / `copyFile` / `remove`): `none` when
those calls succeed, `some e` when one of them throws the message `e`
(disk full, permission error, ...).  The function itself never throws. -/
def approveBaseline (cfgFile : ConfigFile) (cwd : String) (fs : FS)
    (fault : Option String) (snapshotName : String) : ApprovalResult × FS :=
  match loadConfig cfgFile with
  | .error e => (classifyApprovalError snapshotName e, fs)
  | .ok config =>
    let currentPath := pathJoin (pathJoin cwd config.paths.current) (snapshotName ++ ".png")
    let baselinePath := pathJoin (pathJoin cwd config.paths.baseline) (snapshotName ++ ".png")
    let diffPath := pathJoin (pathJoin cwd config.paths.diff) (snapshotName ++ ".png")
    if ¬ existsSync fs currentPath then
      ({ success := false
         message := "Current screenshot not found: " ++ snapshotName
         error := some "FILE_NOT_FOUND" }, fs)
    else
      match fault with
      | some e => (classifyApprovalError snapshotName e, fs)
      | none =>
        let content := (fs.lookup currentPath).getD (.corrupt "")
        let fs₁ := writeFile fs baselinePath content
        let fs₂ := if existsSync fs₁ diffPath then removeFile fs₁ diffPath else fs₁
        ({ success := true
           message := "Successfully approved baseline for: " ++ snapshotName
           snapshotName := some snapshotName }, fs₂)

/-! ## Capture log (`src/core/StateLogger.ts`) -/

/-- `CaptureMetadata` from `StateLogger.ts`.  `id` and `timestamp` are
assigned at capture time by the external UUID generator and clock; the
model receives them already filled in. -/
structure CaptureMetadata where
  id : String
  name : String
  screenshotPath : String
  domSnippet : String
  timestamp : String
  environment : Option String := none
  viewport : Option (Nat × Nat) := none
  testFile : Option String := none
  testTitle : Option String := none
  error : Option String := none
deriving DecidableEq

/-- The `maxCapturesPerFile` bound of `StateLogger`. -/
def maxCapturesPerFile : Nat := 1000

/-- The state of the `StateLogger` singleton: the partition map
`capturesByTestFile`, keyed by test file, in first-touch order. -/
structure StateLogger where
  capturesByTestFile : List (String × List CaptureMetadata)
deriving DecidableEq

/-- A fresh logger (`StateLogger.reset`). -/
def StateLogger.empty : StateLogger := ⟨[]⟩

/-- The per-partition step of `logCapture`: push the record, then evict the
oldest (`shift`) when the bound is exceeded. -/
def pushCapture (captures : List CaptureMetadata) (c : CaptureMetadata) :
    List CaptureMetadata :=
  let captures' := captures ++ [c]
  if captures'.length > maxCapturesPerFile then captures'.tail else captures'

/-- Insert into the partition map: update the existing partition in place,
or append a fresh partition at the end (JavaScript `Map` insertion order). -/
def updatePartition (m : List (String × List CaptureMetadata)) (fileKey : String)
    (c : CaptureMetadata) : List (String × List CaptureMetadata) :=
  match m with
  | [] => [(fileKey, pushCapture [] c)]
  | (k, cs) :: rest =>
    if k = fileKey then (k, pushCapture cs c) :: rest
    else (k, cs) :: updatePartition rest fileKey c

/-- `StateLogger.logCapture`: file the capture under `testFile` (default
partition `"default"`). -/
def StateLogger.logCapture (st : StateLogger) (capture : CaptureMetadata)
    (testFile : Option String) : StateLogger :=
  let fileKey := testFile.getD "default"
  ⟨updatePartition st.capturesByTestFile fileKey capture⟩

/-- `StateLogger.size`: total record count across partitions. -/
def StateLogger.size (st : StateLogger) : Nat :=
  (st.capturesByTestFile.map (fun pr => pr.2.length)).sum

/-- `StateLogger.getCapturesByTestFile`: the records of one partition
(a copy, empty when the partition does not exist). -/
def StateLogger.getCapturesByTestFile (st : StateLogger) (testFile : String) :
    List CaptureMetadata :=
  (st.capturesByTestFile.lookup testFile).getD []

/-! ## Concrete example inputs used by witnesses and counterexamples -/

/-- A concrete `pixelmatch` instance reporting no mismatched pixels. -/
def pmZero : Pixelmatch := ⟨fun _ _ _ _ _ => (0, [])⟩

/-- A concrete `pixelmatch` instance reporting one mismatched pixel. -/
def pmOne : Pixelmatch := ⟨fun _ _ _ _ _ => (1, [])⟩

/-- A 2×2 all-zero image. -/
def img2a : Image := { width := 2, height := 2, data := [0, 0, 0, 0] }

/-- A second 2×2 image. -/
def img2b : Image := { width := 2, height := 2, data := [1, 1, 1, 1] }

/-- A 3×3 image. -/
def img3 : Image := { width := 3, height := 3, data := [] }

/-- A filesystem with a matching baseline/current pair. -/
def fsPair : FS :=
  [("/w/base/a.png", .png img2a), ("/w/cur/a.png", .png img2b)]

/-- A filesystem with a dimension-mismatched baseline/current pair. -/
def fsMismatch : FS :=
  [("/w/base/a.png", .png img2a), ("/w/cur/a.png", .png img3)]

/-- A filesystem holding only one current screenshot under the default
configuration's current directory. -/
def fsDefaultCurrent : FS :=
  [("/w/.testivai/artifacts/current/a.png", .png img2a)]

/-- A concrete `failed` comparison result. -/
def rFailedEx : ComparisonResult :=
  { name := "landing"
    status := .failed
    diffPixelRatio := 1/2
    diffPixelCount := 2
    totalPixels := 4
    baselinePath := some "/w/base/landing.png"
    currentPath := some "/w/cur/landing.png"
    diffPath := some "/w/d/landing.png"
    threshold := 1/10 }

/-- A concrete capture record. -/
def capEx : CaptureMetadata :=
  { id := "id-1"
    name := "landing"
    screenshotPath := "/w/.testivai/artifacts/current/landing.png"
    domSnippet := "<div></div>"
    timestamp := "2026-01-01T00:00:00.000Z" }

/-! ## Helper lemmas -/

theorem processComparison_fst_name (pm : Pixelmatch) (fs : FS) (name : String)
    (bp cp : Option String) (dp : String) (t : Rat) :
    (processComparison pm fs name bp cp dp t).1.name = name := by
  unfold processComparison
  dsimp only
  split
  · rfl
  · split
    · rfl
    · split <;> rfl

theorem processComparison_fst_threshold (pm : Pixelmatch) (fs : FS) (name : String)
    (bp cp : Option String) (dp : String) (t : Rat) :
    (processComparison pm fs name bp cp dp t).1.threshold = t := by
  unfold processComparison
  dsimp only
  split
  · rfl
  · split
    · rfl
    · split <;> rfl

theorem processAll_map_name (pm : Pixelmatch) (fs : FS) (names : List String)
    (baselines currents : List (String × String)) (diffDir : String) (t : Rat) :
    (processAll pm fs names baselines currents diffDir t).1.map
      (fun r => r.name) = names := by
  induction names generalizing fs with
  | nil => rfl
  | cons name rest ih =>
    simp only [processAll, List.map_cons, processComparison_fst_name, ih]

theorem processAll_threshold (pm : Pixelmatch) (fs : FS) (names : List String)
    (baselines currents : List (String × String)) (diffDir : String) (t : Rat) :
    ∀ r ∈ (processAll pm fs names baselines currents diffDir t).1,
      r.threshold = t := by
  induction names generalizing fs with
  | nil => intro r h; cases h
  | cons name rest ih =>
    intro r h
    simp only [processAll, List.mem_cons] at h
    rcases h with h | h
    · subst h; exact processComparison_fst_threshold ..
    · exact ih _ _ h

/-- Each result's status is exactly one of the five statuses, so the five
status tallies partition the results list. -/
theorem status_tally (rs : List ComparisonResult) :
    (rs.filter (fun r => r.status = .passed)).length +
    (rs.filter (fun r => r.status = .failed)).length +
    (rs.filter (fun r => r.status = .new)).length +
    (rs.filter (fun r => r.status = .missing)).length +
    (rs.filter (fun r => r.status = .error)).length = rs.length := by
  induction rs with
  | nil => rfl
  | cons r rest ih =>
    cases h : r.status <;>
      simp [List.filter_cons, h, ← ih] <;> omega

/-! ## C9 -/

/-- C9: every `VerificationSummary` returned by `runVerification` has
`total` equal to the length of `results`, each of the five counters equal
to the tally of results with that status, and the five counters summing to
`total`. -/
theorem C9_summary_counts (pm : Pixelmatch) (cfgFile : ConfigFile)
    (cwd : String) (fs : FS) (now : String) (s : VerificationSummary) (fs' : FS)
    (h : runVerification pm cfgFile cwd fs now = .ok (s, fs')) :
    s.total = s.results.length ∧
    s.passed = (s.results.filter (fun r => r.status = .passed)).length ∧
    s.failed = (s.results.filter (fun r => r.status = .failed)).length ∧
    s.new = (s.results.filter (fun r => r.status = .new)).length ∧
    s.missing = (s.results.filter (fun r => r.status = .missing)).length ∧
    s.errors = (s.results.filter (fun r => r.status = .error)).length ∧
    s.passed + s.failed + s.new + s.missing + s.errors = s.total := by
  unfold runVerification at h
  split at h
  · exact absurd h (by simp)
  · rw [Except.ok.injEq, Prod.mk.injEq] at h
    obtain ⟨hs, _⟩ := h
    subst hs
    refine ⟨rfl, rfl, rfl, rfl, rfl, rfl, ?_⟩
    exact status_tally _

/-- Witness for C9: a concrete verification run. -/
theorem C9_summary_counts_witness :
    ∃ s fs', runVerification pmZero none "/w" fsDefaultCurrent "t" = .ok (s, fs') ∧
      (s.total = s.results.length ∧
       s.passed = (s.results.filter (fun r => r.status = .passed)).length ∧
       s.failed = (s.results.filter (fun r => r.status = .failed)).length ∧
       s.new = (s.results.filter (fun r => r.status = .new)).length ∧
       s.missing = (s.results.filter (fun r => r.status = .missing)).length ∧
       s.errors = (s.results.filter (fun r => r.status = .error)).length ∧
       s.passed + s.failed + s.new + s.missing + s.errors = s.total) := by
  refine ⟨_, _, rfl, ?_⟩
  exact C9_summary_counts pmZero none "/w" fsDefaultCurrent "t" _ _ rfl

/-! ## C4 -/

/-- C4: the decision table is evaluated in order: without a baseline file
the result is `new` (hence never `passed`/`failed`) with `currentPath`
recorded; with a baseline but no current file it is `missing` with the
human-readable error and `baselinePath` recorded; in both cases the
filesystem is untouched and the outcome is independent of the pixel
comparison function (no decoding or pixel comparison occurs), and
`runVerification` applies this to every name in the union of baseline and
current names. -/
theorem C4_decision_table :
    (∀ (pm pm' : Pixelmatch) (fs : FS) (name : String) (bp cp : Option String)
        (dp : String) (t : Rat), pathPresent fs bp = false →
      (processComparison pm fs name bp cp dp t).1.status = .new ∧
      (processComparison pm fs name bp cp dp t).1.currentPath = cp ∧
      (processComparison pm fs name bp cp dp t).2 = fs ∧
      processComparison pm fs name bp cp dp t = processComparison pm' fs name bp cp dp t) ∧
    (∀ (pm pm' : Pixelmatch) (fs : FS) (name : String) (bp cp : Option String)
        (dp : String) (t : Rat), pathPresent fs bp = true → pathPresent fs cp = false →
      (processComparison pm fs name bp cp dp t).1.status = .missing ∧
      (processComparison pm fs name bp cp dp t).1.error =
        some "Current screenshot is missing. Test may have been deleted." ∧
      (processComparison pm fs name bp cp dp t).1.baselinePath = bp ∧
      (processComparison pm fs name bp cp dp t).2 = fs ∧
      processComparison pm fs name bp cp dp t = processComparison pm' fs name bp cp dp t) ∧
    (∀ (pm : Pixelmatch) (cfgFile : ConfigFile) (cwd : String) (fs : FS)
        (now : String) (s : VerificationSummary) (fs' : FS),
      runVerification pm cfgFile cwd fs now = .ok (s, fs') →
      ∃ config, loadConfig cfgFile = .ok config ∧
        s.results.map (fun r => r.name) =
          verificationNames fs (pathJoin cwd config.paths.baseline)
            (pathJoin cwd config.paths.current)) := by
  refine ⟨?_, ?_, ?_⟩
  · intro pm pm' fs name bp cp dp t h
    simp [processComparison, h]
  · intro pm pm' fs name bp cp dp t hb hc
    simp [processComparison, hb, hc]
  · intro pm cfgFile cwd fs now s fs' h
    unfold runVerification at h
    split at h
    · exact absurd h (by simp)
    · rename_i config hconfig
      rw [Except.ok.injEq, Prod.mk.injEq] at h
      obtain ⟨hs, _⟩ := h
      subst hs
      exact ⟨config, hconfig, processAll_map_name ..⟩

/-- Witness for C4: baseline missing gives `new`, baseline present with
current missing gives `missing`, on a concrete filesystem. -/
theorem C4_decision_table_witness :
    ((processComparison pmZero fsDefaultCurrent "a" none
        (some "/w/.testivai/artifacts/current/a.png") "/w/d/a.png" (1/10)).1.status =
      .new ∧
     (processComparison pmZero fsDefaultCurrent "a" none
        (some "/w/.testivai/artifacts/current/a.png") "/w/d/a.png" (1/10)).1.currentPath =
      some "/w/.testivai/artifacts/current/a.png" ∧
     (processComparison pmZero fsDefaultCurrent "a" none
        (some "/w/.testivai/artifacts/current/a.png") "/w/d/a.png" (1/10)).2 =
      fsDefaultCurrent ∧
     processComparison pmZero fsDefaultCurrent "a" none
        (some "/w/.testivai/artifacts/current/a.png") "/w/d/a.png" (1/10) =
      processComparison pmOne fsDefaultCurrent "a" none
        (some "/w/.testivai/artifacts/current/a.png") "/w/d/a.png" (1/10)) ∧
    ((processComparison pmZero fsPair "b" (some "/w/base/a.png") none
        "/w/d/b.png" (1/10)).1.status = .missing ∧
     (processComparison pmZero fsPair "b" (some "/w/base/a.png") none
        "/w/d/b.png" (1/10)).1.error =
      some "Current screenshot is missing. Test may have been deleted." ∧
     (processComparison pmZero fsPair "b" (some "/w/base/a.png") none
        "/w/d/b.png" (1/10)).1.baselinePath = some "/w/base/a.png" ∧
     (processComparison pmZero fsPair "b" (some "/w/base/a.png") none
        "/w/d/b.png" (1/10)).2 = fsPair ∧
     processComparison pmZero fsPair "b" (some "/w/base/a.png") none
        "/w/d/b.png" (1/10) =
      processComparison pmOne fsPair "b" (some "/w/base/a.png") none
        "/w/d/b.png" (1/10)) := by
  constructor
  · exact C4_decision_table.1 pmZero pmOne fsDefaultCurrent "a" none
      (some "/w/.testivai/artifacts/current/a.png") "/w/d/a.png" (1/10) rfl
  · exact C4_decision_table.2.1 pmZero pmOne fsPair "b" (some "/w/base/a.png") none
      "/w/d/b.png" (1/10) rfl rfl

/-! ## C6 -/

/-- C6: when both images exist but decode to different dimensions the
result has status `error` with a message naming both dimensions, the
filesystem is untouched, and the failure is isolated: `runVerification`
still returns one result for every snapshot name of the batch. -/
theorem C6_dimension_mismatch :
    (∀ (pm : Pixelmatch) (fs : FS) (name bp cp dp : String) (t : Rat)
        (b c : Image),
      fs.lookup bp = some (.png b) → fs.lookup cp = some (.png c) →
      b.width ≠ c.width ∨ b.height ≠ c.height →
      (processComparison pm fs name (some bp) (some cp) dp t).1.status = .error ∧
      (processComparison pm fs name (some bp) (some cp) dp t).1.error =
        some (dimensionMismatchMessage b c) ∧
      (processComparison pm fs name (some bp) (some cp) dp t).2 = fs) ∧
    (∀ (pm : Pixelmatch) (cfgFile : ConfigFile) (cwd : String) (fs : FS)
        (now : String) (s : VerificationSummary) (fs' : FS),
      runVerification pm cfgFile cwd fs now = .ok (s, fs') →
      ∃ config, loadConfig cfgFile = .ok config ∧
        s.results.length =
          (verificationNames fs (pathJoin cwd config.paths.baseline)
            (pathJoin cwd config.paths.current)).length ∧
        ∀ name ∈ verificationNames fs (pathJoin cwd config.paths.baseline)
            (pathJoin cwd config.paths.current),
          ∃ r ∈ s.results, r.name = name) := by
  constructor
  · intro pm fs name bp cp dp t b c hb hc hdim
    simp [processComparison, pathPresent, existsSync, compareImages, loadImage,
      hb, hc, hdim]
  · intro pm cfgFile cwd fs now s fs' h
    unfold runVerification at h
    split at h
    · exact absurd h (by simp)
    · rename_i config hconfig
      rw [Except.ok.injEq, Prod.mk.injEq] at h
      obtain ⟨hs, _⟩ := h
      subst hs
      have hm := processAll_map_name pm fs
        (verificationNames fs (pathJoin cwd config.paths.baseline)
          (pathJoin cwd config.paths.current))
        (getScreenshots fs (pathJoin cwd config.paths.baseline))
        (getScreenshots fs (pathJoin cwd config.paths.current))
        (pathJoin cwd config.paths.diff) config.visualEngine.threshold
      refine ⟨config, hconfig, ?_, ?_⟩
      · conv_rhs => rw [← hm]
        exact (List.length_map _ _).symm
      · intro name hname
        rw [← hm] at hname
        obtain ⟨r, hr, hrname⟩ := List.mem_map.mp hname
        exact ⟨r, hr, hrname⟩

/-- Witness for C6: a 2×2 baseline against a 3×3 current yields an `error`
result whose message names both dimension pairs. -/
theorem C6_dimension_mismatch_witness :
    (processComparison pmZero fsMismatch "a" (some "/w/base/a.png")
        (some "/w/cur/a.png") "/w/d/a.png" (1/10)).1.status = .error ∧
    (processComparison pmZero fsMismatch "a" (some "/w/base/a.png")
        (some "/w/cur/a.png") "/w/d/a.png" (1/10)).1.error =
      some (dimensionMismatchMessage img2a img3) ∧
    (processComparison pmZero fsMismatch "a" (some "/w/base/a.png")
        (some "/w/cur/a.png") "/w/d/a.png" (1/10)).2 = fsMismatch :=
  C6_dimension_mismatch.1 pmZero fsMismatch "a" "/w/base/a.png" "/w/cur/a.png"
    "/w/d/a.png" (1/10) img2a img3 rfl rfl (by decide)

/-! ## C5 -/

/-- C5: when baseline and current both exist and decode to equal
dimensions, `diffPixelRatio` is `diffPixelCount / totalPixels` (and `0`
when `totalPixels = 0`), and the status is `passed` exactly when the ratio
is at most the threshold — in particular a ratio exactly equal to the
threshold is `passed`. -/
theorem C5_ratio_and_threshold (pm : Pixelmatch) (fs : FS) (name bp cp dp : String)
    (t : Rat) (b c : Image)
    (hb : fs.lookup bp = some (.png b)) (hc : fs.lookup cp = some (.png c))
    (hw : b.width = c.width) (hh : b.height = c.height) :
    (processComparison pm fs name (some bp) (some cp) dp t).1.diffPixelRatio =
      ((processComparison pm fs name (some bp) (some cp) dp t).1.diffPixelCount : Rat) /
      ((processComparison pm fs name (some bp) (some cp) dp t).1.totalPixels : Rat) ∧
    ((processComparison pm fs name (some bp) (some cp) dp t).1.totalPixels = 0 →
      (processComparison pm fs name (some bp) (some cp) dp t).1.diffPixelRatio = 0) ∧
    ((processComparison pm fs name (some bp) (some cp) dp t).1.status = .passed ↔
      (processComparison pm fs name (some bp) (some cp) dp t).1.diffPixelRatio ≤ t) ∧
    ((processComparison pm fs name (some bp) (some cp) dp t).1.diffPixelRatio = t →
      (processComparison pm fs name (some bp) (some cp) dp t).1.status = .passed) ∧
    ((processComparison pm fs name (some bp) (some cp) dp t).1.status = .passed ∨
      (processComparison pm fs name (some bp) (some cp) dp t).1.status = .failed) := by
  have hcmp : compareImages pm fs bp cp dp t =
      .ok (((pm.run b.data c.data b.width b.height
          { threshold := t
            includeAA := true
            alpha := 1/10
            diffColor := [255, 0, 0] }).1,
        b.width * b.height),
        writeFile fs dp (.png
          { width := b.width
            height := b.height
            data := (pm.run b.data c.data b.width b.height
              { threshold := t
                includeAA := true
                alpha := 1/10
                diffColor := [255, 0, 0] }).2 })) := by
    simp [compareImages, loadImage, hb, hc, hw, hh]
  have hp : processComparison pm fs name (some bp) (some cp) dp t =
      ({ name := name, status :=
            if (if b.width * b.height > 0 then
                ((pm.run b.data c.data b.width b.height
                  { threshold := t
                    includeAA := true
                    alpha := 1/10
                    diffColor := [255, 0, 0] }).1 : Rat) / (b.width * b.height : Nat)
              else 0) ≤ t then .passed else .failed
         diffPixelRatio :=
            if b.width * b.height > 0 then
              ((pm.run b.data c.data b.width b.height
                  { threshold := t
                    includeAA := true
                    alpha := 1/10
                    diffColor := [255, 0, 0] }).1 : Rat) / (b.width * b.height : Nat)
            else 0
         diffPixelCount := (pm.run b.data c.data b.width b.height
            { threshold := t
              includeAA := true
              alpha := 1/10
              diffColor := [255, 0, 0] }).1
         totalPixels := b.width * b.height
         baselinePath := some bp
         currentPath := some cp
         diffPath := some dp
         error := none
         threshold := t },
        writeFile fs dp (.png
          { width := b.width
            height := b.height
            data := (pm.run b.data c.data b.width b.height
              { threshold := t
                includeAA := true
                alpha := 1/10
                diffColor := [255, 0, 0] }).2 })) := by
    simp [processComparison, pathPresent, existsSync, hb, hc, hcmp]
  rw [hp]
  dsimp only
  constructor
  · by_cases h0 : b.width * b.height > 0
    · rw [if_pos h0]
    · rw [if_neg h0]
      rw [Nat.eq_zero_of_not_pos h0]
      norm_num
  constructor
  · intro hz
    rw [if_neg]
    rw [hz]
    exact lt_irrefl 0
  generalize (if b.width * b.height > 0 then
      ((pm.run b.data c.data b.width b.height
          { threshold := t
            includeAA := true
            alpha := 1/10
            diffColor := [255, 0, 0] }).1 : Rat) / ((b.width * b.height : Nat) : Rat)
    else 0) = R
  by_cases hRt : R ≤ t
  · rw [if_pos hRt]
    exact ⟨⟨fun _ => hRt, fun _ => rfl⟩, fun _ => rfl, Or.inl rfl⟩
  · rw [if_neg hRt]
    refine ⟨⟨fun h => absurd h (by simp), fun h => absurd h hRt⟩, ?_, Or.inr rfl⟩
    intro hEq
    exact absurd (le_of_eq hEq) hRt

/-- Witness for C5: equal 2×2 images with one reported mismatch under the
default threshold. -/
theorem C5_ratio_and_threshold_witness :
    (processComparison pmOne fsPair "a" (some "/w/base/a.png")
        (some "/w/cur/a.png") "/w/d/a.png" (1/10)).1.diffPixelRatio =
      ((processComparison pmOne fsPair "a" (some "/w/base/a.png")
        (some "/w/cur/a.png") "/w/d/a.png" (1/10)).1.diffPixelCount : Rat) /
      ((processComparison pmOne fsPair "a" (some "/w/base/a.png")
        (some "/w/cur/a.png") "/w/d/a.png" (1/10)).1.totalPixels : Rat) ∧
    ((processComparison pmOne fsPair "a" (some "/w/base/a.png")
        (some "/w/cur/a.png") "/w/d/a.png" (1/10)).1.totalPixels = 0 →
      (processComparison pmOne fsPair "a" (some "/w/base/a.png")
        (some "/w/cur/a.png") "/w/d/a.png" (1/10)).1.diffPixelRatio = 0) ∧
    ((processComparison pmOne fsPair "a" (some "/w/base/a.png")
        (some "/w/cur/a.png") "/w/d/a.png" (1/10)).1.status = .passed ↔
      (processComparison pmOne fsPair "a" (some "/w/base/a.png")
        (some "/w/cur/a.png") "/w/d/a.png" (1/10)).1.diffPixelRatio ≤ 1/10) ∧
    ((processComparison pmOne fsPair "a" (some "/w/base/a.png")
        (some "/w/cur/a.png") "/w/d/a.png" (1/10)).1.diffPixelRatio = 1/10 →
      (processComparison pmOne fsPair "a" (some "/w/base/a.png")
        (some "/w/cur/a.png") "/w/d/a.png" (1/10)).1.status = .passed) ∧
    ((processComparison pmOne fsPair "a" (some "/w/base/a.png")
        (some "/w/cur/a.png") "/w/d/a.png" (1/10)).1.status = .passed ∨
      (processComparison pmOne fsPair "a" (some "/w/base/a.png")
        (some "/w/cur/a.png") "/w/d/a.png" (1/10)).1.status = .failed) :=
  C5_ratio_and_threshold pmOne fsPair "a" "/w/base/a.png" "/w/cur/a.png"
    "/w/d/a.png" (1/10) img2a img2b rfl rfl rfl rfl

/-! ## C2 -/

/-- C2 counterexample: with no config file present, the threshold actually
used by `runVerification` for every snapshot is `DEFAULT_CONFIG`'s `0.1`,
which is not the claimed `0.001`. -/
theorem C2_counterexample :
    (runVerification pmZero none "/w" fsDefaultCurrent "t").toOption.map
      (fun p => p.1.results.map (fun r => r.threshold)) = some [1/10] ∧
    (1/10 : Rat) ≠ 1/1000 := by
  constructor
  · rfl
  · norm_num

/-- C2 (amended): when no config file is present, the threshold used by
`runVerification` to classify every snapshot defaults to `0.1` (the
`DEFAULT_CONFIG` value), not `0.001`. -/
theorem C2_default_threshold (pm : Pixelmatch) (cwd : String) (fs : FS)
    (now : String) (s : VerificationSummary) (fs' : FS)
    (h : runVerification pm none cwd fs now = .ok (s, fs')) :
    DEFAULT_CONFIG.visualEngine.threshold = 1/10 ∧
    ∀ r ∈ s.results, r.threshold = 1/10 := by
  refine ⟨rfl, ?_⟩
  unfold runVerification at h
  split at h
  · rename_i e heq
    rw [show loadConfig none = Except.ok DEFAULT_CONFIG from rfl] at heq
    exact absurd heq (by simp)
  · rename_i config heq
    rw [show loadConfig none = Except.ok DEFAULT_CONFIG from rfl] at heq
    rw [Except.ok.injEq] at heq
    subst heq
    rw [Except.ok.injEq, Prod.mk.injEq] at h
    obtain ⟨hs, _⟩ := h
    subst hs
    exact processAll_threshold pm fs _ _ _ _ _

/-- Witness for C2's amended claim: a concrete configless run. -/
theorem C2_default_threshold_witness :
    ∃ s fs', runVerification pmZero none "/w" fsDefaultCurrent "t" = .ok (s, fs') ∧
      (DEFAULT_CONFIG.visualEngine.threshold = 1/10 ∧
       ∀ r ∈ s.results, r.threshold = 1/10) := by
  refine ⟨_, _, rfl, ?_⟩
  exact C2_default_threshold pmZero "/w" fsDefaultCurrent "t" _ _ rfl

/-! ## C10 -/

/-- C10: with no config file `loadConfig` returns the built-in default
configuration instead of raising; it raises exactly when a config file
exists but fails to parse or fails structural validation; consequently a
configless verification run always succeeds against the default paths. -/
theorem C10_loadConfig_defaults :
    loadConfig none = .ok DEFAULT_CONFIG ∧
    (∀ e, loadConfig (some (.error e)) =
      .error ("Failed to parse testivai.config.json: " ++ e)) ∧
    (∀ j, (∃ e, loadConfig (some (.ok j)) = .error e) ↔
      (∃ e, validateConfig j = .error e)) ∧
    (∀ (pm : Pixelmatch) (cwd : String) (fs : FS) (now : String),
      ∃ out, runVerification pm none cwd fs now = .ok out) := by
  refine ⟨rfl, fun e => rfl, ?_, ?_⟩
  · intro j
    cases hv : validateConfig j with
    | error e => simp [loadConfig, hv]
    | ok u => simp [loadConfig, hv]
  · intro pm cwd fs now
    exact ⟨_, rfl⟩

/-! ## C3 -/

/-- C3: the claim that every request resolving outside the report root is
answered 403 fails on the code: the containment check is a string-prefix
test without a trailing separator, so a `..`-traversal into a sibling
directory whose name extends the root's name is served as a file even
though it lies outside the root.  Evaluated at a concrete request. -/
theorem C3_prefix_check_gap :
    handleRequest "/home/user/.testivai/reports" "GET" "/../reports-evil/secret.txt" =
      .file "/home/user/.testivai/reports-evil/secret.txt" ∧
    isInsideRoot "/home/user/.testivai/reports"
      "/home/user/.testivai/reports-evil/secret.txt" = false ∧
    handleRequest "/home/user/.testivai/reports" "GET" "/../../etc/passwd" =
      .forbidden := by
  refine ⟨by decide, by decide, by decide⟩

/-! ## Filesystem lemmas -/

theorem lookup_writeFile_self (fs : FS) (p : String) (d : FileData) :
    (writeFile fs p d).lookup p = some d := by
  induction fs with
  | nil => simp [writeFile, List.lookup]
  | cons pr rest ih =>
    obtain ⟨q, e⟩ := pr
    by_cases h : q = p
    · subst h
      simp [writeFile, List.lookup]
    · simp only [writeFile, if_neg h]
      rw [show List.lookup p ((q, e) :: writeFile rest p d) =
        List.lookup p (writeFile rest p d) from by
          simp [List.lookup, show (p == q) = false from
            beq_eq_false_iff_ne.mpr (Ne.symm h)]]
      exact ih

theorem lookup_writeFile_ne (fs : FS) (p q : String) (d : FileData) (h : q ≠ p) :
    (writeFile fs p d).lookup q = fs.lookup q := by
  induction fs with
  | nil =>
    simp [writeFile, List.lookup, show (q == p) = false from
      beq_eq_false_iff_ne.mpr h]
  | cons pr rest ih =>
    obtain ⟨k, e⟩ := pr
    by_cases hk : k = p
    · subst hk
      simp [writeFile, List.lookup, show (q == k) = false from
        beq_eq_false_iff_ne.mpr h]
    · simp only [writeFile, if_neg hk]
      by_cases hq : k = q
      · subst hq
        simp [List.lookup]
      · rw [show List.lookup q ((k, e) :: writeFile rest p d) =
          List.lookup q (writeFile rest p d) from by
            simp [List.lookup, show (q == k) = false from
              beq_eq_false_iff_ne.mpr (Ne.symm hq)]]
        rw [show List.lookup q ((k, e) :: rest) = List.lookup q rest from by
          simp [List.lookup, show (q == k) = false from
            beq_eq_false_iff_ne.mpr (Ne.symm hq)]]
        exact ih

theorem lookup_removeFile_self (fs : FS) (p : String) :
    (removeFile fs p).lookup p = none := by
  induction fs with
  | nil => rfl
  | cons pr rest ih =>
    obtain ⟨k, e⟩ := pr
    by_cases hk : k = p
    · subst hk
      simpa [removeFile, List.filter] using ih
    · simp only [removeFile, List.filter] at ih ⊢
      rw [show (decide (k ≠ p)) = true from by simp [hk]]
      rw [show List.lookup p ((k, e) :: List.filter (fun pr => decide (pr.1 ≠ p)) rest) =
        List.lookup p (List.filter (fun pr => decide (pr.1 ≠ p)) rest) from by
          simp [List.lookup, show (p == k) = false from
            beq_eq_false_iff_ne.mpr (Ne.symm hk)]]
      exact ih

theorem lookup_removeFile_ne (fs : FS) (p q : String) (h : q ≠ p) :
    (removeFile fs p).lookup q = fs.lookup q := by
  induction fs with
  | nil => rfl
  | cons pr rest ih =>
    obtain ⟨k, e⟩ := pr
    by_cases hk : k = p
    · subst hk
      simp only [removeFile, List.filter] at ih ⊢
      rw [show (decide (k ≠ k)) = false from by simp]
      rw [show List.lookup q ((k, e) :: rest) = List.lookup q rest from by
        simp [List.lookup, show (q == k) = false from beq_eq_false_iff_ne.mpr h]]
      exact ih
    · simp only [removeFile, List.filter] at ih ⊢
      rw [show (decide (k ≠ p)) = true from by simp [hk]]
      by_cases hq : k = q
      · subst hq
        simp [List.lookup]
      · rw [show List.lookup q ((k, e) :: List.filter (fun pr => decide (pr.1 ≠ p)) rest) =
          List.lookup q (List.filter (fun pr => decide (pr.1 ≠ p)) rest) from by
            simp [List.lookup, show (q == k) = false from
              beq_eq_false_iff_ne.mpr (Ne.symm hq)]]
        rw [show List.lookup q ((k, e) :: rest) = List.lookup q rest from by
          simp [List.lookup, show (q == k) = false from
            beq_eq_false_iff_ne.mpr (Ne.symm hq)]]
        exact ih

/-- The catch-block classifier never produces `FILE_NOT_FOUND`, always
fails, and always lands in the documented taxonomy. -/
theorem classifyApprovalError_spec (n e : String) :
    (classifyApprovalError n e).success = false ∧
    (classifyApprovalError n e).error ≠ some "FILE_NOT_FOUND" ∧
    ((classifyApprovalError n e).error = some "PERMISSION_DENIED" ∨
     (classifyApprovalError n e).error = some "NO_SPACE" ∨
     (classifyApprovalError n e).error = some "UNKNOWN_ERROR") := by
  unfold classifyApprovalError
  split
  · exact ⟨rfl, by simp, Or.inl rfl⟩
  · split
    · exact ⟨rfl, by simp, Or.inr (Or.inl rfl)⟩
    · exact ⟨rfl, by simp, Or.inr (Or.inr rfl)⟩

/-! ## C7 -/

/-- C7: `approveBaseline` fails with `FILE_NOT_FOUND` exactly when the
current file for the snapshot does not exist; otherwise (when the
filesystem mutation succeeds) it copies the current file over the baseline,
removes any diff for the name, and returns a success result — and it never
throws: every failure carries one of the four documented error kinds. -/
theorem C7_approve_baseline (cfgFile : ConfigFile) (cwd : String) (fs : FS)
    (fault : Option String) (name : String) (config : TestivAIConfig)
    (hcfg : loadConfig cfgFile = .ok config)
    (hbd : pathJoin (pathJoin cwd config.paths.baseline) (name ++ ".png") ≠
      pathJoin (pathJoin cwd config.paths.diff) (name ++ ".png")) :
    ((approveBaseline cfgFile cwd fs fault name).1.error = some "FILE_NOT_FOUND" ↔
      existsSync fs (pathJoin (pathJoin cwd config.paths.current)
        (name ++ ".png")) = false) ∧
    (existsSync fs (pathJoin (pathJoin cwd config.paths.current)
        (name ++ ".png")) = false →
      (approveBaseline cfgFile cwd fs fault name).1.success = false ∧
      (approveBaseline cfgFile cwd fs fault name).1.message =
        "Current screenshot not found: " ++ name ∧
      (approveBaseline cfgFile cwd fs fault name).2 = fs) ∧
    (existsSync fs (pathJoin (pathJoin cwd config.paths.current)
        (name ++ ".png")) = true → fault = none →
      (approveBaseline cfgFile cwd fs fault name).1.success = true ∧
      (approveBaseline cfgFile cwd fs fault name).1.message =
        "Successfully approved baseline for: " ++ name ∧
      (approveBaseline cfgFile cwd fs fault name).1.snapshotName = some name ∧
      (approveBaseline cfgFile cwd fs fault name).1.error = none ∧
      (approveBaseline cfgFile cwd fs fault name).2.lookup
        (pathJoin (pathJoin cwd config.paths.baseline) (name ++ ".png")) =
        fs.lookup (pathJoin (pathJoin cwd config.paths.current) (name ++ ".png")) ∧
      (approveBaseline cfgFile cwd fs fault name).2.lookup
        (pathJoin (pathJoin cwd config.paths.diff) (name ++ ".png")) = none) ∧
    ((approveBaseline cfgFile cwd fs fault name).1.success = false →
      (approveBaseline cfgFile cwd fs fault name).1.error = some "FILE_NOT_FOUND" ∨
      (approveBaseline cfgFile cwd fs fault name).1.error = some "PERMISSION_DENIED" ∨
      (approveBaseline cfgFile cwd fs fault name).1.error = some "NO_SPACE" ∨
      (approveBaseline cfgFile cwd fs fault name).1.error = some "UNKNOWN_ERROR") := by
  have hab : approveBaseline cfgFile cwd fs fault name =
      (if ¬ existsSync fs (pathJoin (pathJoin cwd config.paths.current)
          (name ++ ".png")) then
        ({ success := false
           message := "Current screenshot not found: " ++ name
           error := some "FILE_NOT_FOUND" }, fs)
      else
        match fault with
        | some e => (classifyApprovalError name e, fs)
        | none =>
          let content := (fs.lookup (pathJoin (pathJoin cwd config.paths.current)
            (name ++ ".png"))).getD (.corrupt "")
          let fs₁ := writeFile fs (pathJoin (pathJoin cwd config.paths.baseline)
            (name ++ ".png")) content
          let fs₂ := if existsSync fs₁ (pathJoin (pathJoin cwd config.paths.diff)
              (name ++ ".png")) then
            removeFile fs₁ (pathJoin (pathJoin cwd config.paths.diff) (name ++ ".png"))
          else fs₁
          ({ success := true
             message := "Successfully approved baseline for: " ++ name
             snapshotName := some name }, fs₂)) := by
    unfold approveBaseline
    rw [hcfg]
  by_cases hex : existsSync fs (pathJoin (pathJoin cwd config.paths.current)
      (name ++ ".png")) = true
  · rw [hab]
    rw [if_neg (by simp [hex])]
    cases fault with
    | some e =>
      dsimp only
      obtain ⟨hsf, hnfd, hkinds⟩ := classifyApprovalError_spec name e
      refine ⟨?_, ?_, ?_, ?_⟩
      · simp [hnfd, hex]
      · intro hfalse
        rw [hex] at hfalse
        cases hfalse
      · intro _ hnone
        cases hnone
      · intro _
        rcases hkinds with h | h | h
        · exact Or.inr (Or.inl h)
        · exact Or.inr (Or.inr (Or.inl h))
        · exact Or.inr (Or.inr (Or.inr h))
    | none =>
      dsimp only
      refine ⟨?_, ?_, ?_, ?_⟩
      · simp [hex]
      · intro hfalse
        rw [hex] at hfalse
        cases hfalse
      · intro _ _
        refine ⟨rfl, rfl, rfl, rfl, ?_, ?_⟩
        · split
        -- diff removed or never present; baseline lookup unaffected either way
          · rw [lookup_removeFile_ne _ _ _ hbd, lookup_writeFile_self]
            rw [existsSync] at hex
            obtain ⟨v, hv⟩ := Option.isSome_iff_exists.mp hex
            rw [hv]
            rfl
          · rw [lookup_writeFile_self]
            rw [existsSync] at hex
            obtain ⟨v, hv⟩ := Option.isSome_iff_exists.mp hex
            rw [hv]
            rfl
        · split
          · exact lookup_removeFile_self ..
          · rename_i hdiff
            rw [existsSync] at hdiff
            exact Option.not_isSome_iff_eq_none.mp hdiff
      · intro hfalse
        cases hfalse
  · have hex' : existsSync fs (pathJoin (pathJoin cwd config.paths.current)
        (name ++ ".png")) = false := by
      revert hex
      cases existsSync fs (pathJoin (pathJoin cwd config.paths.current)
        (name ++ ".png")) <;> simp
    rw [hab, if_pos (by simp [hex'])]
    dsimp only
    exact ⟨by simp [hex'], fun _ => ⟨rfl, rfl, rfl⟩, fun htrue => absurd htrue hex,
      fun _ => Or.inl rfl⟩

/-- Witness for C7: approving a snapshot whose current file exists, under
the default configuration. -/
theorem C7_approve_baseline_witness :
    ((approveBaseline none "/w" fsDefaultCurrent none "a").1.error =
        some "FILE_NOT_FOUND" ↔
      existsSync fsDefaultCurrent (pathJoin (pathJoin "/w"
        DEFAULT_CONFIG.paths.current) ("a" ++ ".png")) = false) ∧
    (existsSync fsDefaultCurrent (pathJoin (pathJoin "/w"
        DEFAULT_CONFIG.paths.current) ("a" ++ ".png")) = false →
      (approveBaseline none "/w" fsDefaultCurrent none "a").1.success = false ∧
      (approveBaseline none "/w" fsDefaultCurrent none "a").1.message =
        "Current screenshot not found: " ++ "a" ∧
      (approveBaseline none "/w" fsDefaultCurrent none "a").2 = fsDefaultCurrent) ∧
    (existsSync fsDefaultCurrent (pathJoin (pathJoin "/w"
        DEFAULT_CONFIG.paths.current) ("a" ++ ".png")) = true →
      (none : Option String) = none →
      (approveBaseline none "/w" fsDefaultCurrent none "a").1.success = true ∧
      (approveBaseline none "/w" fsDefaultCurrent none "a").1.message =
        "Successfully approved baseline for: " ++ "a" ∧
      (approveBaseline none "/w" fsDefaultCurrent none "a").1.snapshotName =
        some "a" ∧
      (approveBaseline none "/w" fsDefaultCurrent none "a").1.error = none ∧
      (approveBaseline none "/w" fsDefaultCurrent none "a").2.lookup
        (pathJoin (pathJoin "/w" DEFAULT_CONFIG.paths.baseline) ("a" ++ ".png")) =
        fsDefaultCurrent.lookup (pathJoin (pathJoin "/w"
          DEFAULT_CONFIG.paths.current) ("a" ++ ".png")) ∧
      (approveBaseline none "/w" fsDefaultCurrent none "a").2.lookup
        (pathJoin (pathJoin "/w" DEFAULT_CONFIG.paths.diff) ("a" ++ ".png")) =
        none) ∧
    ((approveBaseline none "/w" fsDefaultCurrent none "a").1.success = false →
      (approveBaseline none "/w" fsDefaultCurrent none "a").1.error =
        some "FILE_NOT_FOUND" ∨
      (approveBaseline none "/w" fsDefaultCurrent none "a").1.error =
        some "PERMISSION_DENIED" ∨
      (approveBaseline none "/w" fsDefaultCurrent none "a").1.error =
        some "NO_SPACE" ∨
      (approveBaseline none "/w" fsDefaultCurrent none "a").1.error =
        some "UNKNOWN_ERROR") :=
  C7_approve_baseline none "/w" fsDefaultCurrent none "a" DEFAULT_CONFIG rfl
    (by decide)

/-! ## Capture-log lemmas -/

theorem pushCapture_length_le (cs : List CaptureMetadata) (c : CaptureMetadata)
    (h : cs.length ≤ 1000) : (pushCapture cs c).length ≤ 1000 := by
  unfold pushCapture maxCapturesPerFile
  dsimp only
  split
  · simp
    omega
  · rename_i hgt
    simp at hgt ⊢
    omega

theorem foldl_pushCapture (rs : List CaptureMetadata) :
    ∀ cs : List CaptureMetadata, cs.length ≤ 1000 →
      rs.foldl pushCapture cs = (cs ++ rs).drop ((cs ++ rs).length - 1000) := by
  induction rs with
  | nil =>
    intro cs h
    simp [Nat.sub_eq_zero_of_le h]
  | cons c rest ih =>
    intro cs h
    rw [List.foldl_cons]
    rw [ih (pushCapture cs c) (pushCapture_length_le cs c h)]
    by_cases hlen : cs.length + 1 > 1000
    · have h1000 : cs.length = 1000 := by omega
      have hpc : pushCapture cs c = (cs ++ [c]).tail := by
        unfold pushCapture maxCapturesPerFile
        rw [if_pos]
        simp [h1000]
      rw [hpc]
      obtain ⟨x, cs', rfl⟩ : ∃ x cs', cs = x :: cs' := by
        cases cs with
        | nil => simp at h1000
        | cons x cs' => exact ⟨x, cs', rfl⟩
      have hlen' : cs'.length = 999 := by simpa using h1000
      simp only [List.cons_append, List.tail_cons]
      rw [show cs' ++ [c] ++ rest = cs' ++ c :: rest from by simp]
      rw [show (cs' ++ c :: rest).length - 1000 = rest.length from by
        simp [hlen']
        omega]
      rw [show (x :: (cs' ++ c :: rest)).length - 1000 = rest.length + 1 from by
        simp [hlen']]
      rw [List.drop_succ_cons]
    · have hpc : pushCapture cs c = cs ++ [c] := by
        unfold pushCapture maxCapturesPerFile
        rw [if_neg]
        simpa using hlen
      rw [hpc]
      rw [List.append_assoc]
      simp

theorem logCapture_single (cs : List CaptureMetadata)
    (c : CaptureMetadata) (tf : Option String) :
    StateLogger.logCapture ⟨[(tf.getD "default", cs)]⟩ c tf =
      ⟨[(tf.getD "default", pushCapture cs c)]⟩ := by
  simp [StateLogger.logCapture, updatePartition]

theorem foldl_logCapture_single (rs : List CaptureMetadata) (tf : Option String) :
    ∀ cs, rs.foldl (fun s c => StateLogger.logCapture s c tf)
        ⟨[(tf.getD "default", cs)]⟩ =
      ⟨[(tf.getD "default", rs.foldl pushCapture cs)]⟩ := by
  induction rs with
  | nil => intro cs; rfl
  | cons c rest ih =>
    intro cs
    rw [List.foldl_cons, List.foldl_cons, logCapture_single]
    exact ih (pushCapture cs c)

theorem updatePartition_bounded (m : List (String × List CaptureMetadata))
    (k : String) (c : CaptureMetadata)
    (hm : ∀ pr ∈ m, pr.2.length ≤ 1000) :
    ∀ pr ∈ updatePartition m k c, pr.2.length ≤ 1000 := by
  induction m with
  | nil =>
    intro pr hpr
    simp [updatePartition] at hpr
    rw [hpr]
    exact pushCapture_length_le [] c (by simp)
  | cons hd rest ih =>
    obtain ⟨k', cs⟩ := hd
    intro pr hpr
    by_cases hk : k' = k
    · simp only [updatePartition, if_pos hk, List.mem_cons] at hpr
      rcases hpr with hpr | hpr
      · rw [hpr]
        exact pushCapture_length_le cs c (hm (k', cs) (List.mem_cons_self ..))
      · exact hm pr (List.mem_cons_of_mem _ hpr)
    · simp only [updatePartition, if_neg hk, List.mem_cons] at hpr
      rcases hpr with hpr | hpr
      · rw [hpr]
        exact hm (k', cs) (List.mem_cons_self ..)
      · exact ih (fun q hq => hm q (List.mem_cons_of_mem _ hq)) pr hpr

theorem foldl_logCapture_bounded (calls : List (CaptureMetadata × Option String)) :
    ∀ st : StateLogger, (∀ pr ∈ st.capturesByTestFile, pr.2.length ≤ 1000) →
      ∀ pr ∈ (calls.foldl (fun st pr => st.logCapture pr.1 pr.2)
        st).capturesByTestFile, pr.2.length ≤ 1000 := by
  induction calls with
  | nil => intro st hst; exact hst
  | cons call rest ih =>
    intro st hst
    rw [List.foldl_cons]
    exact ih _ (updatePartition_bounded _ _ _ hst)

theorem lookup_mem_assoc (m : List (String × List CaptureMetadata)) (k : String)
    (v : List CaptureMetadata) (h : m.lookup k = some v) : (k, v) ∈ m := by
  induction m with
  | nil => cases h
  | cons hd rest ih =>
    obtain ⟨k', v'⟩ := hd
    by_cases hk : k = k'
    · subst hk
      simp [List.lookup] at h
      rw [h]
      exact List.mem_cons_self ..
    · rw [show List.lookup k ((k', v') :: rest) = List.lookup k rest from by
        simp [List.lookup, show (k == k') = false from beq_eq_false_iff_ne.mpr hk]] at h
      exact List.mem_cons_of_mem _ (ih h)

/-! ## C8 -/

/-- C8: every partition of the capture log holds at most 1000 records under
any sequence of `logCapture` calls, and appending 1010 records to one
partition leaves exactly the last 1000 in insertion order (per-partition
FIFO eviction): the 10 oldest are gone and `size` is 1000. -/
theorem C8_capture_log_fifo :
    (∀ calls : List (CaptureMetadata × Option String), ∀ (k : String)
        (cs : List CaptureMetadata),
      ((calls.foldl (fun st pr => st.logCapture pr.1 pr.2)
        StateLogger.empty).capturesByTestFile).lookup k = some cs →
      cs.length ≤ 1000) ∧
    (∀ (rs : List CaptureMetadata) (tf : Option String), rs.length = 1010 →
      (rs.foldl (fun st c => st.logCapture c tf) StateLogger.empty).size = 1000 ∧
      (rs.foldl (fun st c => st.logCapture c tf)
        StateLogger.empty).getCapturesByTestFile (tf.getD "default") =
        rs.drop 10) := by
  constructor
  · intro calls k cs h
    exact foldl_logCapture_bounded calls StateLogger.empty (by simp [StateLogger.empty])
      (k, cs) (lookup_mem_assoc _ k cs h)
  · intro rs tf hlen
    cases rs with
    | nil => cases hlen
    | cons r rest =>
      have hfold : (r :: rest).foldl (fun st c => st.logCapture c tf)
          StateLogger.empty =
          ⟨[(tf.getD "default", (r :: rest).foldl pushCapture [])]⟩ := by
        rw [List.foldl_cons]
        rw [show StateLogger.logCapture StateLogger.empty r tf =
          ⟨[(tf.getD "default", pushCapture [] r)]⟩ from rfl]
        rw [foldl_logCapture_single]
        rw [List.foldl_cons]
      have hdrop : (r :: rest).foldl pushCapture [] = (r :: rest).drop 10 := by
        rw [foldl_pushCapture (r :: rest) [] (by simp)]
        rw [List.nil_append]
        rw [hlen]
      rw [hfold, hdrop]
      have h9 : rest.length = 1009 := by simpa using hlen
      constructor
      · simp [StateLogger.size, List.length_drop, h9]
      · simp [StateLogger.getCapturesByTestFile, List.lookup]

/-- Witness for C8: the bound instantiated at an empty call list, and the
FIFO property instantiated at a concrete 1010-record batch. -/
theorem C8_capture_log_fifo_witness :
    ((List.replicate 1010 capEx).foldl
        (fun st c => st.logCapture c (some "suite.spec.ts"))
        StateLogger.empty).size = 1000 ∧
    ((List.replicate 1010 capEx).foldl
        (fun st c => st.logCapture c (some "suite.spec.ts"))
        StateLogger.empty).getCapturesByTestFile
        ((some "suite.spec.ts").getD "default") =
      (List.replicate 1010 capEx).drop 10 :=
  C8_capture_log_fifo.2 (List.replicate 1010 capEx) (some "suite.spec.ts")
    (by rw [List.length_replicate])

/-! ## C1 -/

theorem append_ne_empty_right (a b : String) (hb : b ≠ "") : a ++ b ≠ "" := by
  intro h
  apply hb
  have hd := congrArg String.data h
  rw [String.data_append] at hd
  exact String.ext (List.append_eq_nil.mp hd).2

/-- C1: the generated report emits an approve control exactly for `failed`
and `new` results, always carrying the inline style `display: none;`
together with a read-only notice (also hidden inline); the embedded gate
script makes approve controls visible (`inline-block`) only on a
successful `/api/status` probe and hides them, showing the read-only
notice (`flex`), on any probe failure. -/
theorem C1_report_gate :
    (∀ result : ComparisonResult,
      (approveButtonHTML result ≠ "" ↔
        result.status = .failed ∨ result.status = .new) ∧
      (readOnlyMessageHTML result ≠ "" ↔
        result.status = .failed ∨ result.status = .new) ∧
      (result.status = .failed ∨ result.status = .new →
        (∃ pre post, approveButtonHTML result =
          pre ++ ("style=\"display: none;\"" ++ post)) ∧
        (∃ pre post, readOnlyMessageHTML result =
          pre ++ ("style=\"display: none;\"" ++ post)))) ∧
    (∀ probe : ProbeOutcome,
      ((checkServerStatus probe).2.approveBtnDisplay = "inline-block" ↔
        probe = .ok) ∧
      ((checkServerStatus probe).1 = true ↔ probe = .ok) ∧
      (probe ≠ .ok →
        (checkServerStatus probe).2.approveBtnDisplay = "none" ∧
        (checkServerStatus probe).2.readOnlyMsgDisplay = "flex")) := by
  constructor
  · intro result
    by_cases hst : result.status = .failed ∨ result.status = .new
    · refine ⟨?_, ?_, fun _ => ⟨?_, ?_⟩⟩
      · refine iff_of_true ?_ hst
        rw [approveButtonHTML, if_pos hst]
        exact append_ne_empty_right _ _ (by decide)
      · refine iff_of_true ?_ hst
        rw [readOnlyMessageHTML, if_pos hst]
        decide
      · rw [approveButtonHTML, if_pos hst]
        refine ⟨"\n    <button \n      class=\"approve-btn\"\n      data-screenshot-name=\"" ++
          result.name ++
          "\"\n      data-baseline-path=\"" ++ (result.baselinePath.getD "") ++
          "\"\n      data-current-path=\"" ++ (result.currentPath.getD "") ++
          "\"\n      data-action=\"approve\"\n      ",
          "\n    >\n      ✓ Approve Change\n    </button>\n  ", ?_⟩
        rw [show ("\"\n      data-action=\"approve\"\n      style=\"display: none;\"\n    >\n      ✓ Approve Change\n    </button>\n  " : String) =
          "\"\n      data-action=\"approve\"\n      " ++
          ("style=\"display: none;\"" ++
            "\n    >\n      ✓ Approve Change\n    </button>\n  ") from rfl]
        simp only [String.append_assoc]
      · rw [readOnlyMessageHTML, if_pos hst]
        exact ⟨"\n    <div class=\"read-only-message\" ",
          ">\n      <span class=\"read-only-icon\">🔒</span>\n      <span class=\"read-only-text\">View-only mode - Start local server to approve changes</span>\n      <code class=\"read-only-command\">npx tsvai serve</code>\n    </div>\n  ",
          rfl⟩
    · simp [approveButtonHTML, readOnlyMessageHTML, hst]
  · intro probe
    cases probe <;> decide

/-- Witness for C1: a concrete `failed` card and concrete probe outcomes. -/
theorem C1_report_gate_witness :
    (approveButtonHTML rFailedEx ≠ "" ↔
      rFailedEx.status = .failed ∨ rFailedEx.status = .new) ∧
    ((∃ pre post, approveButtonHTML rFailedEx =
        pre ++ ("style=\"display: none;\"" ++ post)) ∧
     (∃ pre post, readOnlyMessageHTML rFailedEx =
        pre ++ ("style=\"display: none;\"" ++ post))) ∧
    ((checkServerStatus .networkError).2.approveBtnDisplay = "none" ∧
     (checkServerStatus .networkError).2.readOnlyMsgDisplay = "flex") ∧
    ((checkServerStatus .ok).2.approveBtnDisplay = "inline-block" ↔
      ProbeOutcome.ok = ProbeOutcome.ok) :=
  ⟨(C1_report_gate.1 rFailedEx).1,
   (C1_report_gate.1 rFailedEx).2.2 (Or.inl rfl),
   (C1_report_gate.2 .networkError).2.2 (by decide),
   (C1_report_gate.2 .ok).1⟩

end TestivaiWitness
